import Mathlib

/-
Verification development for the yale-smart-alarm-client library.

The Python sources (auth.py, client.py, lock.py) are shallowly embedded:
pure helpers become Lean functions, the stateful Auth component becomes
explicit state passing over a scripted network oracle (a list of scheduled
HTTP outcomes consumed one per request), and fallible Python code returns
Except values whose error constructors name the Python exception classes.
-/

namespace YaleModel

/-- Python exception classes observable from the embedded code paths.
AuthenticationError and UnknownError come from exceptions.py; ConnectionError,
TimeoutError, KeyError and ValueError are the built-in or requests exceptions
raised by auth.py, client.py and lock.py. The scriptEnd constructor is a model
artifact meaning the scripted network oracle (or the recursion fuel) ran out. -/
inductive PyError where
  | authenticationError
  | connectionError
  | timeoutError
  | unknownError
  | keyError
  | valueError
  | scriptEnd
deriving DecidableEq, Repr

/-- Helper for Python substring containment: true when needle occurs
contiguously inside the list. -/
def subListOf (needle : List Char) : List Char → Bool
  | [] => needle.isEmpty
  | c :: rest => needle.isPrefixOf (c :: rest) || subListOf needle rest

/-- Python operator `needle in hay` on strings: contiguous substring test. -/
def strIn (needle hay : String) : Bool := subListOf needle.data hay.data

/-- Value of a single hexadecimal digit, none for a non-hex character. -/
def hexDigitVal? (c : Char) : Option Nat :=
  if '0' ≤ c ∧ c ≤ '9' then some (c.toNat - '0'.toNat)
  else if 'a' ≤ c ∧ c ≤ 'f' then some (c.toNat - 'a'.toNat + 10)
  else if 'A' ≤ c ∧ c ≤ 'F' then some (c.toNat - 'A'.toNat + 10)
  else none

/-- Accumulating base-16 evaluation of a digit list. -/
def hexValAux : List Char → Nat → Option Nat
  | [], acc => some acc
  | c :: rest, acc =>
    match hexDigitVal? c with
    | none => none
    | some d => hexValAux rest (16 * acc + d)

/-- Python int(s, 16) restricted to plain strings of hexadecimal digits:
none (a ValueError in Python) on the empty string or any non-hex character. -/
def pyIntHex? (s : String) : Option Nat :=
  if s.data.isEmpty then none else hexValAux s.data 0

/-- Python slice s[a:b] for nonnegative bounds (take after drop, clamping). -/
def pySlice (s : String) (a b : Nat) : String :=
  String.mk ((s.data.drop a).take (b - a))

/-- Python slice s[a:] for a nonnegative bound. -/
def pySliceFrom (s : String) (a : Nat) : String :=
  String.mk (s.data.drop a)

/-- Lock state enum YaleLockState from lock.py. -/
inductive YaleLockState where
  | LOCKED
  | UNLOCKED
  | DOOR_OPEN
  | UNKNOWN
deriving DecidableEq, Repr

/-- Device record fields read by the embedded code paths: a JSON object with
the string fields used by lock.py and client.py (spec section 3 data model). -/
structure DeviceRecord where
  type : String
  name : String
  area : String
  address : String
  no : String
  status1 : String
  minigw_lock_status : String
  minigw_configuration_data : String
deriving DecidableEq, Repr

/-- YaleLock._calc_state from lock.py lines 144-166: decode the lock state
from the minigw_lock_status hex bitmask when non-empty (ValueError when the
string is not parseable hex), else fall back to substring matching on
status1. -/
def calc_state (device : DeviceRecord) : Except PyError YaleLockState :=
  let raw_state := device.status1
  let lock_status_str := device.minigw_lock_status
  if lock_status_str ≠ "" then
    match pyIntHex? lock_status_str with
    | none => .error .valueError
    | some lock_status =>
      let closed := (lock_status &&& 16) == 16
      let locked := (lock_status &&& 1) == 1
      if closed && locked then .ok .LOCKED
      else if closed && !locked then .ok .UNLOCKED
      else if !closed then .ok .DOOR_OPEN
      else .ok .UNKNOWN
  else if strIn "device_status.lock" raw_state then .ok .LOCKED
  else if strIn "device_status.unlock" raw_state then .ok .UNLOCKED
  else .ok .UNKNOWN

/-- Lock configuration YaleLockConfig from lock.py: the four two-character
fields sliced out of the minigw_configuration_data string. -/
structure YaleLockConfig where
  volume : String
  autolock : String
  language : String
  arm_hold_time : String
deriving DecidableEq, Repr

/-- YaleLockConfig.__init__ from lock.py lines 33-38: slice the fixed-width
configuration string. -/
def YaleLockConfig.ofString (conf_data : String) : YaleLockConfig :=
  { volume := pySlice conf_data 0 2
    autolock := pySlice conf_data 2 4
    language := pySlice conf_data 8 10
    arm_hold_time := pySlice conf_data 30 32 }

/-- YaleLockConfig.to_string from lock.py lines 72-79: splice the four fields
into a string of 32 zero characters, step by step exactly as the source does. -/
def YaleLockConfig.to_string (c : YaleLockConfig) : String :=
  let conf := String.mk (List.replicate 32 '0')
  let conf := pySlice conf 0 0 ++ c.volume ++ pySliceFrom conf 2
  let conf := pySlice conf 0 2 ++ c.autolock ++ pySliceFrom conf 4
  let conf := pySlice conf 0 8 ++ c.language ++ pySliceFrom conf 10
  let conf := pySlice conf 0 30 ++ c.arm_hold_time ++ pySliceFrom conf 32
  conf

/-- Modelled from the spec: const.py is not under src. Spec section 6 says the
token endpoint returns JSON with access_token and refresh_token fields; this is
the dictionary key read by YaleAuth._authorize for the access token. -/
def YALE_AUTHENTICATION_ACCESS_TOKEN : String := "access_token"

/-- Modelled from the spec: const.py is not under src. Spec section 6 says the
token endpoint returns JSON with access_token and refresh_token fields; this is
the dictionary key read by YaleAuth._authorize for the refresh token. -/
def YALE_AUTHENTICATION_REFRESH_TOKEN : String := "refresh_token"

/-- Modelled from the spec: const.py is not under src. Spec section 6 says the
command endpoints return a code field and the string 000 denotes success; this
is the sentinel compared by client.py. It agrees with CODE_SUCCESS in lock.py. -/
def YALE_CODE_RESULT_SUCCESS : String := "000"

/-- Modelled from the spec: const.py is not under src. The services discovery
endpoint path; its concrete value never influences the embedded behavior, only
the scripted oracle does. -/
def ENDPOINT_SERVICES : String := "/yapi/services/"

/-- Endpoint for arming, from client.py. -/
def ENDPOINT_SET_MODE : String := "/api/panel/mode/"

/-- Endpoint for the panic button, from client.py. -/
def ENDPOINT_PANIC_BUTTON : String := "/api/panel/panic"

/-- Endpoint for closing a lock, from lock.py. -/
def ENDPOINT_DEVICES_CONTROL : String := "/api/panel/device_control/"

/-- Endpoint for opening a lock, from lock.py. -/
def ENDPOINT_DEVICES_UNLOCK : String := "/api/minigw/unlock/"

/-- Success sentinel CODE_SUCCESS from lock.py (YaleDoorManAPI). -/
def CODE_SUCCESS : String := "000"

/-- A parsed JSON object body, restricted to the string-valued fields the
embedded code paths read. -/
abbrev JsonBody := List (String × String)

/-- Python dict.get on a JSON body. -/
def jget (body : JsonBody) (key : String) : Option String := body.lookup key

/-- One scheduled outcome of a requests.get or requests.post call: either a
response with its HTTP status and parsed JSON body, or one of the exception
classes requests can raise at call time. -/
inductive NetEvent where
  | response (status : Nat) (body : JsonBody)
  | timeoutExc
  | connExc
  | requestExc
  | otherExc
deriving DecidableEq, Repr

/-- Mutable attributes of a YaleAuth object (auth.py lines 32-39). -/
structure YaleAuthState where
  host : String
  username : String
  password : String
  refresh_token : Option String
  access_token : Option String
deriving DecidableEq, Repr

/-- Outcome of an embedded stateful call: the Python return value or the
escaping exception, the final attribute state, and the tail of the network
script not yet consumed. -/
abbrev Res (α : Type) := Except PyError α × YaleAuthState × List NetEvent

/-- Condition under which response.raise_for_status() raises HTTPError:
a 4xx or 5xx status. -/
def httpErrorStatus (status : Nat) : Bool := 400 ≤ status && status < 600

mutual

/-- YaleAuth.get_authenticated from auth.py lines 48-86. On a 4xx or 5xx
status, when the status is 401 or 403 the code clears both tokens, calls
_authorize, recursively retries the request, discards the value of the retry
and then still raises ConnectionError; any exception from the re-authorization
or the retry escapes uncaught since it occurs inside the except handler. The
fuel argument bounds the recursion depth of the model. -/
def get_authenticated : Nat → YaleAuthState → List NetEvent → String → Res JsonBody
  | 0, st, script, _ => (.error .scriptEnd, st, script)
  | _ + 1, st, [], _ => (.error .scriptEnd, st, [])
  | fuel + 1, st, ev :: rest, endpoint =>
    match ev with
    | .response status body =>
      if httpErrorStatus status then
        if status = 401 ∨ status = 403 then
          let st1 := { st with refresh_token := none, access_token := none }
          match authorize fuel st1 rest with
          | (.error e, st2, rest2) => (.error e, st2, rest2)
          | (.ok _, st2, rest2) =>
            match get_authenticated fuel st2 rest2 endpoint with
            | (.error e, st3, rest3) => (.error e, st3, rest3)
            | (.ok _, st3, rest3) => (.error .connectionError, st3, rest3)
        else (.error .connectionError, st, rest)
      else (.ok body, st, rest)
    | .timeoutExc => (.error .timeoutError, st, rest)
    | .connExc => (.error .connectionError, st, rest)
    | .requestExc => (.error .unknownError, st, rest)
    | .otherExc => (.error .unknownError, st, rest)

/-- YaleAuth.post_authenticated from auth.py lines 88-136: same control flow
as get_authenticated, except that for an endpoint containing the substring
panic a successful call returns the literal object with a panic field set to
triggered instead of the parsed response body. -/
def post_authenticated : Nat → YaleAuthState → List NetEvent → String → JsonBody → Res JsonBody
  | 0, st, script, _, _ => (.error .scriptEnd, st, script)
  | _ + 1, st, [], _, _ => (.error .scriptEnd, st, [])
  | fuel + 1, st, ev :: rest, endpoint, params =>
    match ev with
    | .response status body =>
      if httpErrorStatus status then
        if status = 401 ∨ status = 403 then
          let st1 := { st with refresh_token := none, access_token := none }
          match authorize fuel st1 rest with
          | (.error e, st2, rest2) => (.error e, st2, rest2)
          | (.ok _, st2, rest2) =>
            match post_authenticated fuel st2 rest2 endpoint params with
            | (.error e, st3, rest3) => (.error e, st3, rest3)
            | (.ok _, st3, rest3) => (.error .connectionError, st3, rest3)
        else (.error .connectionError, st, rest)
      else
        if strIn "panic" endpoint then (.ok [("panic", "triggered")], st, rest)
        else (.ok body, st, rest)
    | .timeoutExc => (.error .timeoutError, st, rest)
    | .connExc => (.error .connectionError, st, rest)
    | .requestExc => (.error .unknownError, st, rest)
    | .otherExc => (.error .unknownError, st, rest)

/-- YaleAuth._authorize from auth.py lines 152-206. A 401 or 403 on the token
endpoint raises AuthenticationError, any other 4xx or 5xx raises
ConnectionError. On success the token attributes are assigned from the
response body BEFORE the None check, then _update_services runs, and the
method returns the current token attributes as a pair. -/
def authorize : Nat → YaleAuthState → List NetEvent → Res (Option String × Option String)
  | 0, st, script => (.error .scriptEnd, st, script)
  | _ + 1, st, [] => (.error .scriptEnd, st, [])
  | fuel + 1, st, ev :: rest =>
    match ev with
    | .response status body =>
      if httpErrorStatus status then
        if status = 401 ∨ status = 403 then (.error .authenticationError, st, rest)
        else (.error .connectionError, st, rest)
      else
        let st1 := { st with
          refresh_token := jget body YALE_AUTHENTICATION_REFRESH_TOKEN,
          access_token := jget body YALE_AUTHENTICATION_ACCESS_TOKEN }
        match st1.refresh_token, st1.access_token with
        | some _, some _ =>
          match update_services fuel st1 rest with
          | (.error e, st2, rest2) => (.error e, st2, rest2)
          | (.ok _, st2, rest2) => (.ok (st2.access_token, st2.refresh_token), st2, rest2)
        | _, _ => (.error .authenticationError, st1, rest)
    | .timeoutExc => (.error .timeoutError, st, rest)
    | .connExc => (.error .connectionError, st, rest)
    | .requestExc => (.error .unknownError, st, rest)
    | .otherExc => (.error .unknownError, st, rest)

/-- YaleAuth._update_services from auth.py lines 138-150: fetch the services
document and, when a non-empty yapi URL is present, strip a trailing slash and
install it as the new base host. -/
def update_services : Nat → YaleAuthState → List NetEvent → Res Unit
  | 0, st, script => (.error .scriptEnd, st, script)
  | fuel + 1, st, script =>
    match get_authenticated fuel st script ENDPOINT_SERVICES with
    | (.error e, st1, rest) => (.error e, st1, rest)
    | (.ok data, st1, rest) =>
      match jget data "yapi" with
      | some url =>
        if url.length > 0 then
          let url2 := if url.endsWith "/" then pySlice url 0 (url.length - 1) else url
          (.ok (), { st1 with host := url2 }, rest)
        else (.ok (), st1, rest)
      | none => (.ok (), st1, rest)

end

/-- YaleSmartAlarmClient.set_armed_status from client.py lines 296-315: one
authenticated POST of the area and mode parameters; True exactly when the
response code field equals the success sentinel. Reading a missing code field
is a Python KeyError. -/
def set_armed_status (fuel : Nat) (st : YaleAuthState) (script : List NetEvent)
    (area_id : Nat) (mode : String) : Res Bool :=
  let params : JsonBody := [("area", toString area_id), ("mode", mode)]
  match post_authenticated fuel st script ENDPOINT_SET_MODE params with
  | (.error e, st1, rest) => (.error e, st1, rest)
  | (.ok response, st1, rest) =>
    match jget response "code" with
    | none => (.error .keyError, st1, rest)
    | some c =>
      if c == YALE_CODE_RESULT_SUCCESS then (.ok true, st1, rest)
      else (.ok false, st1, rest)

/-- YaleSmartAlarmClient.trigger_panic_button from client.py lines 317-322:
POST to the panic endpoint, then test the code field of the returned object
against the success sentinel. -/
def trigger_panic_button (fuel : Nat) (st : YaleAuthState) (script : List NetEvent) : Res Bool :=
  match post_authenticated fuel st script ENDPOINT_PANIC_BUTTON [] with
  | (.error e, st1, rest) => (.error e, st1, rest)
  | (.ok response, st1, rest) =>
    match jget response "code" with
    | none => (.error .keyError, st1, rest)
    | some c =>
      if c == YALE_CODE_RESULT_SUCCESS then (.ok true, st1, rest)
      else (.ok false, st1, rest)

/-- In-memory YaleLock object from lock.py: the name, the backing device
record, the parsed configuration and the cached lock state. -/
structure YaleLockM where
  name : String
  device : DeviceRecord
  config : YaleLockConfig
  state : YaleLockState
deriving DecidableEq, Repr

/-- YaleLock.set_state from lock.py lines 140-142. -/
def YaleLockM.set_state (lock : YaleLockM) (new_state : YaleLockState) : YaleLockM :=
  { lock with state := new_state }

/-- YaleDoorManAPI.close_lock from lock.py lines 305-347: POST the control
parameters, compare the code field with CODE_SUCCESS, and on success set the
local lock state to LOCKED. -/
def close_lock (fuel : Nat) (st : YaleAuthState) (script : List NetEvent)
    (lock : YaleLockM) : Except PyError Bool × YaleLockM × YaleAuthState × List NetEvent :=
  let params : JsonBody :=
    [("area", lock.device.area), ("zone", lock.device.no),
     ("device_sid", lock.device.address), ("device_type", lock.device.type),
     ("request_value", "1")]
  match post_authenticated fuel st script ENDPOINT_DEVICES_CONTROL params with
  | (.error e, st1, rest) => (.error e, lock, st1, rest)
  | (.ok operation_status, st1, rest) =>
    match jget operation_status "code" with
    | none => (.error .keyError, lock, st1, rest)
    | some c =>
      let success := c == CODE_SUCCESS
      if success then (.ok success, lock.set_state .LOCKED, st1, rest)
      else (.ok success, lock, st1, rest)

/-- YaleDoorManAPI.open_lock from lock.py lines 349-386: POST the unlock
parameters with the pin code, compare the code field with CODE_SUCCESS, and on
success set the local lock state to UNLOCKED. -/
def open_lock (fuel : Nat) (st : YaleAuthState) (script : List NetEvent)
    (lock : YaleLockM) (pin_code : String) :
    Except PyError Bool × YaleLockM × YaleAuthState × List NetEvent :=
  let params : JsonBody :=
    [("area", lock.device.area), ("zone", lock.device.no), ("pincode", pin_code)]
  match post_authenticated fuel st script ENDPOINT_DEVICES_UNLOCK params with
  | (.error e, st1, rest) => (.error e, lock, st1, rest)
  | (.ok operation_status, st1, rest) =>
    match jget operation_status "code" with
    | none => (.error .keyError, lock, st1, rest)
    | some c =>
      let success := c == CODE_SUCCESS
      if success then (.ok success, lock.set_state .UNLOCKED, st1, rest)
      else (.ok success, lock, st1, rest)

/-- Sample authenticated state used by concrete scenarios. -/
def stEx : YaleAuthState :=
  { host := "https://mob.example/yapi", username := "u", password := "p",
    refresh_token := some "r0", access_token := some "a0" }

/-- Sample token endpoint body carrying both tokens. -/
def tokenBody1 : JsonBody := [("access_token", "a1"), ("refresh_token", "r1")]

/-- Second sample token endpoint body carrying both tokens. -/
def tokenBody2 : JsonBody := [("access_token", "a2"), ("refresh_token", "r2")]

/-- Sample data endpoint body. -/
def dataBody : JsonBody := [("data", "42")]

/-- Sample door lock device record with the given status1 and
minigw_lock_status fields. -/
def mkLockDevice (status1 mls : String) : DeviceRecord :=
  { type := "device_type.door_lock", name := "door", area := "1",
    address := "RF:01:aa", no := "1", status1 := status1,
    minigw_lock_status := mls, minigw_configuration_data := "" }

/-- Bit 4 test: the Python comparison (n and 16) == 16 is exactly testBit 4. -/
lemma and_sixteen_beq (n : Nat) : ((n &&& 16) == 16) = n.testBit 4 := by
  have h : n &&& 16 = (n.testBit 4).toNat * 16 := by
    have h0 := Nat.and_two_pow n 4
    norm_num at h0
    exact h0
  rw [h]
  cases n.testBit 4 <;> decide

/-- Bit 0 test via the residue: n mod 2 is the value of testBit 0. -/
lemma mod_two_toNat_testBit (n : Nat) : n % 2 = (n.testBit 0).toNat := by
  have h := Nat.and_two_pow n 0
  simpa [Nat.and_one_is_mod] using h

/-- C3: for a device whose minigw_lock_status is a non-empty hexadecimal
string parsing to n, the decoder maps by bits of n: bit 4 and bit 0 set gives
LOCKED, bit 4 set and bit 0 clear gives UNLOCKED, bit 4 clear gives DOOR_OPEN
regardless of bit 0. -/
theorem calc_state_hex_bitmap (d : DeviceRecord) (n : Nat)
    (hne : d.minigw_lock_status ≠ "")
    (hp : pyIntHex? d.minigw_lock_status = some n) :
    calc_state d =
      .ok (if n.testBit 4 then
             if n.testBit 0 then YaleLockState.LOCKED else YaleLockState.UNLOCKED
           else YaleLockState.DOOR_OPEN) := by
  have hmod := mod_two_toNat_testBit n
  cases hb4 : n.testBit 4 <;> cases hb0 : n.testBit 0 <;>
    rw [hb0] at hmod <;> simp at hmod <;>
    simp [calc_state, hne, hp, and_sixteen_beq, hb4, hb0, hmod]

/-- Witness for C3: the spec's three concrete rows, 11 to LOCKED (0x11 has
bits 0 and 4), 10 to UNLOCKED (bit 4 only) and 00 to DOOR_OPEN. -/
theorem calc_state_hex_bitmap_witness :
    calc_state (mkLockDevice "s" "11") = .ok YaleLockState.LOCKED ∧
    calc_state (mkLockDevice "s" "10") = .ok YaleLockState.UNLOCKED ∧
    calc_state (mkLockDevice "s" "00") = .ok YaleLockState.DOOR_OPEN := by
  refine ⟨?_, ?_, ?_⟩
  · have h := calc_state_hex_bitmap (mkLockDevice "s" "11") 17 (by decide) (by decide)
    rw [h]
    exact congrArg Except.ok (by decide)
  · have h := calc_state_hex_bitmap (mkLockDevice "s" "10") 16 (by decide) (by decide)
    rw [h]
    exact congrArg Except.ok (by decide)
  · have h := calc_state_hex_bitmap (mkLockDevice "s" "00") 0 (by decide) (by decide)
    rw [h]
    exact congrArg Except.ok (by decide)

/-- C4: for a device whose minigw_lock_status is the empty string, the decoder
falls back to substring matching on status1: device_status.lock gives LOCKED,
else device_status.unlock gives UNLOCKED, else UNKNOWN. -/
theorem calc_state_fallback (d : DeviceRecord)
    (h : d.minigw_lock_status = "") :
    calc_state d =
      .ok (if strIn "device_status.lock" d.status1 then YaleLockState.LOCKED
           else if strIn "device_status.unlock" d.status1 then YaleLockState.UNLOCKED
           else YaleLockState.UNKNOWN) := by
  simp only [calc_state, h, ne_eq, not_true_eq_false, if_false]
  split_ifs <;> rfl

/-- Witness for C4: status1 of device_status.lock with an empty bitmask field
decodes to LOCKED. -/
theorem calc_state_fallback_witness :
    calc_state (mkLockDevice "device_status.lock" "") = .ok YaleLockState.LOCKED := by
  have h := calc_state_fallback (mkLockDevice "device_status.lock" "") rfl
  rw [h]
  exact congrArg Except.ok (by decide)

/-- C5: a lock configuration whose four fields are two-character strings is
reproduced exactly by encoding with to_string and re-parsing with the
constructor slices. -/
theorem lock_config_roundtrip (c : YaleLockConfig)
    (hv : c.volume.length = 2) (ha : c.autolock.length = 2)
    (hl : c.language.length = 2) (ht : c.arm_hold_time.length = 2) :
    YaleLockConfig.ofString c.to_string = c := by
  obtain ⟨⟨lv⟩, ⟨la⟩, ⟨ll⟩, ⟨lt⟩⟩ := c
  simp only [String.length] at hv ha hl ht
  obtain ⟨v1, v2, rfl⟩ := List.length_eq_two.mp hv
  obtain ⟨a1, a2, rfl⟩ := List.length_eq_two.mp ha
  obtain ⟨l1, l2, rfl⟩ := List.length_eq_two.mp hl
  obtain ⟨t1, t2, rfl⟩ := List.length_eq_two.mp ht
  rfl

/-- Witness for C5: round trip at a concrete configuration. -/
theorem lock_config_roundtrip_witness :
    YaleLockConfig.ofString
        (YaleLockConfig.to_string ⟨"03", "FF", "en", "0A"⟩) =
      ⟨"03", "FF", "en", "0A"⟩ :=
  lock_config_roundtrip ⟨"03", "FF", "en", "0A"⟩ rfl rfl rfl rfl

/-- Sample in-memory lock object. -/
def lockEx : YaleLockM :=
  { name := "door", device := mkLockDevice "s" "",
    config := ⟨"03", "FF", "en", "0A"⟩, state := .UNKNOWN }

/-- A successful POST (status 200) to a non-panic endpoint returns the
response body and leaves the state untouched. -/
lemma post_ok (fuel : Nat) (st : YaleAuthState) (rest : List NetEvent)
    (endpoint : String) (params body : JsonBody)
    (hp : strIn "panic" endpoint = false) :
    post_authenticated (fuel + 1) st (.response 200 body :: rest) endpoint params =
      (.ok body, st, rest) := by
  have h200 : httpErrorStatus 200 = false := rfl
  simp [post_authenticated, h200, hp]

/-- C7: each command operation, given a well-formed response carrying a code
field with value c, returns the boolean comparison of c with the fixed success
sentinel string 000: True exactly for 000, False for every other code. -/
theorem command_success_sentinel (fuel : Nat) (st : YaleAuthState)
    (area_id : Nat) (mode pin_code : String) (lock : YaleLockM)
    (body : JsonBody) (c : String) (hc : jget body "code" = some c) :
    (set_armed_status (fuel + 1) st [.response 200 body] area_id mode).1 =
        .ok (c == YALE_CODE_RESULT_SUCCESS) ∧
    (close_lock (fuel + 1) st [.response 200 body] lock).1 =
        .ok (c == CODE_SUCCESS) ∧
    (open_lock (fuel + 1) st [.response 200 body] lock pin_code).1 =
        .ok (c == CODE_SUCCESS) ∧
    ((c == YALE_CODE_RESULT_SUCCESS) = true ↔ c = "000") := by
  refine ⟨?_, ?_, ?_, ?_⟩
  · have h := post_ok fuel st [] ENDPOINT_SET_MODE
      [("area", toString area_id), ("mode", mode)] body rfl
    cases hbe : c == YALE_CODE_RESULT_SUCCESS <;>
      simp [set_armed_status, h, hc, hbe]
  · have h := post_ok fuel st [] ENDPOINT_DEVICES_CONTROL
      [("area", lock.device.area), ("zone", lock.device.no),
       ("device_sid", lock.device.address), ("device_type", lock.device.type),
       ("request_value", "1")] body rfl
    cases hbe : c == CODE_SUCCESS <;>
      simp [close_lock, h, hc, hbe]
  · have h := post_ok fuel st [] ENDPOINT_DEVICES_UNLOCK
      [("area", lock.device.area), ("zone", lock.device.no),
       ("pincode", pin_code)] body rfl
    cases hbe : c == CODE_SUCCESS <;>
      simp [open_lock, h, hc, hbe]
  · simp [YALE_CODE_RESULT_SUCCESS]

/-- Witness for C7: code 000 arms successfully, code 001 reports failure. -/
theorem command_success_sentinel_witness :
    (set_armed_status 1 stEx [.response 200 [("code", "000")]] 1 "arm").1 =
        .ok true ∧
    (close_lock 1 stEx [.response 200 [("code", "001")]] lockEx).1 =
        .ok false := by
  constructor
  · have h :=
      (command_success_sentinel 0 stEx 1 "arm" "p" lockEx [("code", "000")] "000" rfl).1
    simpa using h
  · have h :=
      (command_success_sentinel 0 stEx 1 "arm" "p" lockEx [("code", "001")] "001" rfl).2.1
    simpa using h

/-- C10: close_lock sets the local state to LOCKED (and open_lock to
UNLOCKED) exactly on success code 000; on any other code the operation returns
False and the lock object, including its configuration, is unchanged; the
success update touches only the state field, never the configuration. -/
theorem lock_command_frame (fuel : Nat) (st : YaleAuthState) (lock : YaleLockM)
    (pin_code : String) (body : JsonBody) (c : String)
    (hc : jget body "code" = some c) :
    (c = CODE_SUCCESS →
      close_lock (fuel + 1) st [.response 200 body] lock =
        (.ok true, lock.set_state .LOCKED, st, []) ∧
      open_lock (fuel + 1) st [.response 200 body] lock pin_code =
        (.ok true, lock.set_state .UNLOCKED, st, [])) ∧
    (c ≠ CODE_SUCCESS →
      close_lock (fuel + 1) st [.response 200 body] lock =
        (.ok false, lock, st, []) ∧
      open_lock (fuel + 1) st [.response 200 body] lock pin_code =
        (.ok false, lock, st, [])) ∧
    (lock.set_state .LOCKED).config = lock.config ∧
    (lock.set_state .UNLOCKED).config = lock.config := by
  have hcl := post_ok fuel st [] ENDPOINT_DEVICES_CONTROL
    [("area", lock.device.area), ("zone", lock.device.no),
     ("device_sid", lock.device.address), ("device_type", lock.device.type),
     ("request_value", "1")] body rfl
  have hop := post_ok fuel st [] ENDPOINT_DEVICES_UNLOCK
    [("area", lock.device.area), ("zone", lock.device.no),
     ("pincode", pin_code)] body rfl
  refine ⟨?_, ?_, rfl, rfl⟩
  · intro hceq
    constructor <;> simp [close_lock, open_lock, hcl, hop, hc, hceq]
  · intro hcne
    have hbe : (c == CODE_SUCCESS) = false := by
      simp [hcne]
    constructor <;> simp [close_lock, open_lock, hcl, hop, hc, hbe]

/-- Witness for C10: a 001 code leaves the lock object untouched and returns
False. -/
theorem lock_command_frame_witness :
    close_lock 1 stEx [.response 200 [("code", "001")]] lockEx =
      (.ok false, lockEx, stEx, []) :=
  ((lock_command_frame 0 stEx lockEx "p" [("code", "001")] "001" rfl).2.1
    (by decide)).1

/-- C2 is refuted by the code: on a well-formed successful response to the
panic POST, post_authenticated substitutes the literal panic object, which has
no code field, so trigger_panic_button raises KeyError instead of returning a
boolean. The scripted successful response even carries a code field of 000. -/
theorem trigger_panic_raises_keyerror :
    trigger_panic_button 1 stEx [.response 200 [("code", "000")]] =
      (.error .keyError, stEx, []) := rfl

/-- C1 is refuted by the code: a GET that receives 401, re-authenticates
successfully (the token and services exchanges succeed) and whose retried
request succeeds with a body still raises ConnectionError to the caller,
discarding the retried body. The empty remaining script shows all four
exchanges, including the successful retry, were performed. -/
theorem get_retry_discards_success :
    get_authenticated 10 stEx
        [.response 401 [], .response 200 tokenBody1, .response 200 [],
         .response 200 dataBody] "/api/panel/mode/" =
      (.error .connectionError,
       { stEx with refresh_token := some "r1", access_token := some "a1" },
       []) := rfl

/-- C6 is refuted by the code: after a second consecutive 401 the code
performs a second re-authentication and a third request attempt instead of
propagating immediately. The final state carries the tokens of the second
token exchange and the whole seven-event script is consumed, so the second
re-authentication and the third attempt both happened; the escaping error is
still ConnectionError. -/
theorem get_second_401_reauthorizes_again :
    get_authenticated 10 stEx
        [.response 401 [], .response 200 tokenBody1, .response 200 [],
         .response 401 [], .response 200 tokenBody2, .response 200 [],
         .response 200 dataBody] "/api/panel/mode/" =
      (.error .connectionError,
       { stEx with refresh_token := some "r2", access_token := some "a2" },
       []) := rfl

/-- C8 as stated is refuted: a 401 on a data call followed by a token response
carrying only a refresh token leaves the Auth state with the refresh token
present and the access token absent, a reachable partially-set state, because
_authorize assigns the attributes before validating them. -/
theorem partial_tokens_reachable :
    get_authenticated 5 stEx
        [.response 401 [], .response 200 [("refresh_token", "r1")]]
        "/api/panel/mode/" =
      (.error .authenticationError,
       { stEx with refresh_token := some "r1", access_token := none },
       []) := rfl

/-- A get_authenticated call that returns a value (rather than raising) left
the attribute state untouched: every arm of the 401 handler ends in an
exception, so the value can only come from the direct success branch. -/
lemma get_authenticated_ok_state (fuel : Nat) (st : YaleAuthState)
    (script : List NetEvent) (endpoint : String) (b : JsonBody)
    (st2 : YaleAuthState) (rest : List NetEvent)
    (h : get_authenticated fuel st script endpoint = (.ok b, st2, rest)) :
    st2 = st := by
  cases fuel with
  | zero => simp [get_authenticated] at h
  | succ fuel =>
    cases script with
    | nil => simp [get_authenticated] at h
    | cons ev rest1 =>
      cases ev with
      | response status body =>
        simp only [get_authenticated] at h
        by_cases hs : httpErrorStatus status = true
        · rw [if_pos hs] at h
          by_cases h43 : status = 401 ∨ status = 403
          · rw [if_pos h43] at h
            rcases hA : authorize fuel
                { st with refresh_token := none, access_token := none } rest1
              with ⟨ea, sta, ra⟩
            rw [hA] at h
            cases ea with
            | error e => simp at h
            | ok v =>
              dsimp only at h
              rcases hG : get_authenticated fuel sta ra endpoint with ⟨eg, stg, rg⟩
              rw [hG] at h
              cases eg <;> simp at h
          · rw [if_neg h43] at h
            simp at h
        · rw [if_neg hs] at h
          simp at h
          exact h.2.1.symm
      | timeoutExc => simp [get_authenticated] at h
      | connExc => simp [get_authenticated] at h
      | requestExc => simp [get_authenticated] at h
      | otherExc => simp [get_authenticated] at h

/-- An update_services call that returns normally leaves both token attributes
untouched: it can only change the host field. -/
lemma update_services_ok_tokens (fuel : Nat) (st : YaleAuthState)
    (script : List NetEvent) (u : Unit) (st2 : YaleAuthState)
    (rest : List NetEvent)
    (h : update_services fuel st script = (.ok u, st2, rest)) :
    st2.access_token = st.access_token ∧ st2.refresh_token = st.refresh_token := by
  cases fuel with
  | zero => simp [update_services] at h
  | succ fuel =>
    simp only [update_services] at h
    rcases hG : get_authenticated fuel st script ENDPOINT_SERVICES with ⟨eg, stg, rg⟩
    rw [hG] at h
    cases eg with
    | error e => simp at h
    | ok data =>
      have hst := get_authenticated_ok_state fuel st script ENDPOINT_SERVICES
        data stg rg hG
      subst hst
      dsimp only at h
      cases hj : jget data "yapi" with
      | none =>
        rw [hj] at h
        dsimp only at h
        have h2 := congrArg (fun t => t.2.1) h
        dsimp only at h2
        rw [← h2]
        exact ⟨rfl, rfl⟩
      | some url =>
        rw [hj] at h
        dsimp only at h
        by_cases hl : url.length > 0
        · rw [if_pos hl] at h
          have h2 := congrArg (fun t => t.2.1) h
          dsimp only at h2
          rw [← h2]
          exact ⟨rfl, rfl⟩
        · rw [if_neg hl] at h
          have h2 := congrArg (fun t => t.2.1) h
          dsimp only at h2
          rw [← h2]
          exact ⟨rfl, rfl⟩

/-- C8 amended: after every successful authorization the access and refresh
tokens are both present; the never-partially-set clause of the original claim
is dropped, since a failed authorization whose token response carries exactly
one token leaves the attributes partially set. -/
theorem authorize_ok_tokens (fuel : Nat) (st : YaleAuthState)
    (script : List NetEvent) (p : Option String × Option String)
    (st2 : YaleAuthState) (rest : List NetEvent)
    (h : authorize fuel st script = (.ok p, st2, rest)) :
    st2.access_token.isSome ∧ st2.refresh_token.isSome := by
  cases fuel with
  | zero => simp [authorize] at h
  | succ fuel =>
    cases script with
    | nil => simp [authorize] at h
    | cons ev rest1 =>
      cases ev with
      | response status body =>
        simp only [authorize] at h
        by_cases hs : httpErrorStatus status = true
        · rw [if_pos hs] at h
          by_cases h43 : status = 401 ∨ status = 403
          · rw [if_pos h43] at h
            simp at h
          · rw [if_neg h43] at h
            simp at h
        · rw [if_neg hs] at h
          cases hr : jget body YALE_AUTHENTICATION_REFRESH_TOKEN with
          | none =>
            rw [hr] at h
            simp at h
          | some r =>
            cases ha : jget body YALE_AUTHENTICATION_ACCESS_TOKEN with
            | none =>
              rw [hr, ha] at h
              simp at h
            | some a =>
              rw [hr, ha] at h
              rcases hU : update_services fuel
                  { st with refresh_token := some r, access_token := some a }
                  rest1
                with ⟨eu, stu, ru⟩
              rw [hU] at h
              cases eu with
              | error e => simp at h
              | ok u =>
                have ht := update_services_ok_tokens fuel
                  { st with refresh_token := some r, access_token := some a }
                  rest1 u stu ru hU
                dsimp only at h
                have h2 := congrArg (fun t => t.2.1) h
                dsimp only at h2
                rw [← h2]
                refine ⟨?_, ?_⟩
                · rw [ht.1]
                  rfl
                · rw [ht.2]
                  rfl
      | timeoutExc => simp [authorize] at h
      | connExc => simp [authorize] at h
      | requestExc => simp [authorize] at h
      | otherExc => simp [authorize] at h

/-- Witness for the amended C8: a concrete successful authorization, whose
final state carries both tokens. -/
theorem authorize_ok_tokens_witness :
    ({ stEx with refresh_token := some "r1", access_token := some "a1" } :
        YaleAuthState).access_token.isSome ∧
    ({ stEx with refresh_token := some "r1", access_token := some "a1" } :
        YaleAuthState).refresh_token.isSome :=
  authorize_ok_tokens 5 stEx [.response 200 tokenBody1, .response 200 []]
    (some "a1", some "r1")
    { stEx with refresh_token := some "r1", access_token := some "a1" } [] rfl

/-- C9 as stated is refuted: a 200 token response that carries an access token
but no refresh token does not lack both tokens, and the server did not reject
the credentials, yet _authorize raises AuthenticationError (the code checks
each token separately, not both together). -/
theorem authorize_single_token_rejected :
    authorize 5 stEx [.response 200 [("access_token", "a1")]] =
      (.error .authenticationError,
       { stEx with refresh_token := none, access_token := some "a1" },
       []) ∧
    (jget [("access_token", "a1")] YALE_AUTHENTICATION_ACCESS_TOKEN).isSome :=
  ⟨rfl, rfl⟩

/-- An update_services exchange answered 200 with a body carrying no yapi
field succeeds and leaves the state unchanged. -/
lemma update_services_no_yapi (fuel : Nat) (st : YaleAuthState) :
    update_services (fuel + 2) st [.response 200 ([] : JsonBody)] =
      (.ok (), st, []) := by
  have h200 : httpErrorStatus 200 = false := rfl
  simp [update_services, get_authenticated, h200, jget]

/-- C9 amended: over a token exchange followed by a successful empty services
exchange, authorization fails with AuthenticationError exactly when the server
rejects the credentials (401 or 403 on the token endpoint) or the token
response lacks either token (the original claim said both); on success it
yields the access and refresh token pair. -/
theorem authorize_error_characterization (fuel : Nat) (st : YaleAuthState)
    (status : Nat) (body : JsonBody) (hlt : status < 600) :
    ((authorize (fuel + 3) st
          [.response status body, .response 200 []]).1 =
        .error .authenticationError ↔
      (status = 401 ∨ status = 403 ∨
        (status < 400 ∧
          (jget body YALE_AUTHENTICATION_REFRESH_TOKEN = none ∨
           jget body YALE_AUTHENTICATION_ACCESS_TOKEN = none)))) ∧
    (∀ a r, jget body YALE_AUTHENTICATION_ACCESS_TOKEN = some a →
      jget body YALE_AUTHENTICATION_REFRESH_TOKEN = some r → status < 400 →
      (authorize (fuel + 3) st
          [.response status body, .response 200 []]).1 =
        .ok (some a, some r)) := by
  constructor
  · by_cases h43 : status = 401 ∨ status = 403
    · have hs : httpErrorStatus status = true := by
        simp only [httpErrorStatus]
        rcases h43 with h | h <;> subst h <;> rfl
      simp [authorize, hs, h43]
      rcases h43 with h | h
      · exact Or.inl h
      · exact Or.inr (Or.inl h)
    · by_cases hge : 400 ≤ status
      · have hs : httpErrorStatus status = true := by
          simp only [httpErrorStatus, Bool.and_eq_true, decide_eq_true_eq]
          omega
        have hlt400 : ¬ status < 400 := by omega
        simp [authorize, hs, h43, hlt400]
      · have hs : httpErrorStatus status = false := by
          simp only [httpErrorStatus, Bool.and_eq_false_iff, decide_eq_false_iff_not]
          omega
        have hlt400 : status < 400 := by omega
        cases hr : jget body YALE_AUTHENTICATION_REFRESH_TOKEN with
        | none => simp [authorize, hs, h43, hlt400, hr]
        | some r =>
          cases ha : jget body YALE_AUTHENTICATION_ACCESS_TOKEN with
          | none => simp [authorize, hs, h43, hlt400, hr, ha]
          | some a =>
            simp [authorize, hs, h43, hlt400, hr, ha,
              update_services_no_yapi fuel
                { st with refresh_token := some r, access_token := some a }]
  · intro a r ha hr hlt400
    have hs : httpErrorStatus status = false := by
      simp only [httpErrorStatus, Bool.and_eq_false_iff, decide_eq_false_iff_not]
      omega
    simp [authorize, hs, hr, ha,
      update_services_no_yapi fuel
        { st with refresh_token := some r, access_token := some a }]

/-- Witness for the amended C9: a 401 on the token endpoint yields
AuthenticationError. -/
theorem authorize_error_characterization_witness :
    (authorize 3 stEx [.response 401 [], .response 200 []]).1 =
      .error .authenticationError :=
  (authorize_error_characterization 0 stEx 401 [] (by decide)).1.mpr (Or.inl rfl)

end YaleModel
